import Mathlib

/-!
Shallow embedding of the FreakSearch backend service (`backend/main.py`).

The service exposes user registration and login backed by a MySQL `users`
table, a scripted chatbot endpoint backed by an optional pre-trained
intent classifier, and file upload / static routes.  This file embeds the
request handlers as pure Lean functions:

* the `users` table is a `List UserRow`;
* each database-touching handler also returns the list of SQL statements
  it executed (`SqlStmt`), so frame and rollback properties can be stated
  about the trace; `runTrace` gives the table state after a handler runs,
  with MySQL transaction semantics (`commit` publishes pending inserts,
  `rollback` and connection close discard them);
* nondeterminism of the external world (connection success, insert
  success, the bcrypt salt, the pickled vectorizer/model artifacts) is
  passed in explicitly as parameters;
* exceptions raised by external calls are modelled with `Except`.
-/

namespace FreakSearch

/-- A stored password hash, as kept in the `password_hash` column.
`bcrypt salt digest` is a well-formed bcrypt hash string (salt plus
digest); `malformed raw` is any string that is not a valid bcrypt hash.

Modelled from the spec: the Password Hasher (passlib `CryptContext` with
the bcrypt scheme) is an external library, not part of this repository.
The spec describes it as a salted one-way function whose `verify` never
raises on malformed stored hashes. -/
inductive StoredHash where
  | bcrypt (salt : Nat) (digest : List Nat)
  | malformed (raw : String)
  deriving DecidableEq, Repr

/-- Modelled from the spec: the idealized bcrypt digest of a password
under a given salt.  The real digest is a one-way function that is
collision-free except with negligible probability; the model keeps the
two properties the spec relies on (determinism and injectivity for a
fixed salt) exact. -/
def idealDigest (salt : Nat) (password : String) : List Nat :=
  password.data.map (fun c => c.toNat + salt)

/-- `hash_password` from `main.py` (`pwd_context.hash`).  The salt is the
random salt bcrypt draws; it is passed explicitly.

Modelled from the spec: `hash(plain) -> hash_string` using a salted,
adaptive one-way function. -/
def hash_password (salt : Nat) (password : String) : StoredHash :=
  StoredHash.bcrypt salt (idealDigest salt password)

/-- `verify_password` from `main.py` (`pwd_context.verify`).  It re-derives
the digest of the candidate password under the stored salt and compares
constant-time (modelled as plain equality, which has the same value).

Modelled from the spec: `verify(plain, hash_string) -> bool`, never raises
on malformed stored hashes beyond returning false-equivalent failure. -/
def verify_password (plain_password : String) (hashed_password : StoredHash) : Bool :=
  match hashed_password with
  | StoredHash.bcrypt salt digest => idealDigest salt plain_password == digest
  | StoredHash.malformed _ => false

/-- One row of the `users` table: `users(username unique, password_hash)`. -/
structure UserRow where
  username : String
  password_hash : StoredHash
  deriving DecidableEq, Repr

/-- An SQL statement executed by a handler against the `users` table. -/
inductive SqlStmt where
  | select (username : String)
  | insertRow (username : String) (hash : StoredHash)
  | commit
  | rollback
  deriving DecidableEq, Repr

/-- Whether a statement is a pure read. -/
def SqlStmt.isRead : SqlStmt → Bool
  | SqlStmt.select _ => true
  | _ => false

/-- Transaction-level effect of one statement on
`(committed rows, pending uncommitted rows)`. -/
def applyStmt : List UserRow × List UserRow → SqlStmt → List UserRow × List UserRow
  | (com, pend), SqlStmt.select _ => (com, pend)
  | (com, pend), SqlStmt.insertRow u h => (com, pend ++ [⟨u, h⟩])
  | (com, pend), SqlStmt.commit => (com ++ pend, [])
  | (com, _), SqlStmt.rollback => (com, [])

/-- The `users` table after a handler's statement trace runs against `st`.
Closing the connection discards pending uncommitted rows. -/
def runTrace (st : List UserRow) (tr : List SqlStmt) : List UserRow :=
  (tr.foldl applyStmt (st, [])).1

/-- Outcome of the external database for one request: whether
`get_db_connection` yields a connection, and whether the
`INSERT`+`commit` block succeeds or raises a `mysql.connector.Error`
with the given message. -/
structure DbEnv where
  connect : Bool
  insert : Except String Unit

/-- A JSON response of an auth endpoint: `ok msg` is HTTP 200 with body
`{"message": msg}`; `httpError s d` is a raised `HTTPException` with
status `s` and body `{"detail": d}`. -/
inductive ApiResponse where
  | ok (message : String)
  | httpError (status : Nat) (detail : String)
  deriving DecidableEq, Repr

/-- What a database-touching handler produces: the SQL statements it
executed and the HTTP response. -/
structure DbOutcome where
  trace : List SqlStmt
  resp : ApiResponse
  deriving DecidableEq, Repr

/-- The `UserAuth` pydantic model: request body of register and login. -/
structure UserAuth where
  username : String
  password : String

/-- `SELECT * FROM users WHERE username = %s` followed by `fetchone()`:
the first row whose username is exactly the given one. -/
def lookupUser (st : List UserRow) (u : String) : Option UserRow :=
  st.find? (fun r => r.username == u)

/-- `register_user` (`POST /api/register`): fail 500 when no connection;
fail 400 when the username already exists; otherwise hash the password
and insert, committing on success and rolling back (fail 500) when the
insert raises. -/
def register_user (env : DbEnv) (salt : Nat) (st : List UserRow) (user : UserAuth) :
    DbOutcome :=
  if env.connect = false then
    { trace := [], resp := ApiResponse.httpError 500 "Database connection failed." }
  else
    match lookupUser st user.username with
    | some _ =>
      { trace := [SqlStmt.select user.username],
        resp := ApiResponse.httpError 400 "Username already exists." }
    | none =>
      match env.insert with
      | Except.ok _ =>
        { trace := [SqlStmt.select user.username,
                    SqlStmt.insertRow user.username (hash_password salt user.password),
                    SqlStmt.commit],
          resp := ApiResponse.ok
            ("User \x27" ++ user.username ++ "\x27 registered successfully.") }
      | Except.error e =>
        { trace := [SqlStmt.select user.username, SqlStmt.rollback],
          resp := ApiResponse.httpError 500 ("Failed to register user: " ++ e) }

/-- `login_user` (`POST /api/login`): fail 500 when no connection; look the
user up by exact username; fail 401 when absent or when the password does
not verify against the stored hash; otherwise 200 `Login successful!`. -/
def login_user (env : DbEnv) (st : List UserRow) (user : UserAuth) : DbOutcome :=
  if env.connect = false then
    { trace := [], resp := ApiResponse.httpError 500 "Database connection failed." }
  else
    match lookupUser st user.username with
    | none =>
      { trace := [SqlStmt.select user.username],
        resp := ApiResponse.httpError 401 "Invalid username or password." }
    | some db_user =>
      if verify_password user.password db_user.password_hash then
        { trace := [SqlStmt.select user.username],
          resp := ApiResponse.ok "Login successful!" }
      else
        { trace := [SqlStmt.select user.username],
          resp := ApiResponse.httpError 401 "Invalid username or password." }

/-- The loaded vectorizer artifact: `vectorizer.transform([text])`, which
may raise (`Except.error`). Vectors are modelled as `List Nat`. -/
abbrev VecFn := String → Except String (List Nat)

/-- The loaded model artifact: `model.predict(v)`, which may raise, and
returns an array of predicted labels (the code reads `prediction[0]`). -/
abbrev ModelFn := List Nat → Except String (List String)

/-- A (non-`FileNotFoundError`) exception message, or a
`FileNotFoundError`, raised by `joblib.load` at startup. -/
inductive LoadError where
  | fileNotFound (msg : String)
  | otherError (msg : String)
  deriving DecidableEq, Repr

/-- The module-level artifact loading of `main.py`: load the vectorizer,
then the model, inside one `try` whose single handler catches
`FileNotFoundError` and sets both globals to `None`; any other exception
propagates out of the module initializer. -/
def loadArtifacts (loadVectorizer : Except LoadError VecFn)
    (loadModel : Except LoadError ModelFn) :
    Except LoadError (Option VecFn × Option ModelFn) :=
  match loadVectorizer with
  | Except.error (LoadError.fileNotFound _) => Except.ok (none, none)
  | Except.error e => Except.error e
  | Except.ok v =>
    match loadModel with
    | Except.error (LoadError.fileNotFound _) => Except.ok (none, none)
    | Except.error e => Except.error e
    | Except.ok m => Except.ok (some v, some m)

/-- `predict_intent_with_custom_model`: if both artifacts are loaded,
vectorize the text, run the classifier and return its first predicted
label, catching every exception (including the `IndexError` of
`prediction[0]` on an empty prediction); in every failure or disabled
case return `"unknown"`. -/
def predict_intent_with_custom_model (model : Option ModelFn)
    (vectorizer : Option VecFn) (text : String) : String :=
  match model, vectorizer with
  | some m, some v =>
    match v text with
    | Except.error _ => "unknown"
    | Except.ok text_vectorized =>
      match m text_vectorized with
      | Except.error _ => "unknown"
      | Except.ok prediction =>
        match prediction with
        | [] => "unknown"
        | first :: _ => first
  | _, _ => "unknown"

/-- One part of a chat history message (pydantic `ChatPart`). -/
structure ChatPart where
  text : String

/-- One chat history message (pydantic `ChatMessage`). -/
structure ChatMessage where
  role : String
  parts : List ChatPart

/-- Request body of `POST /api/chatbot` (pydantic `ChatRequest`). -/
structure ChatRequest where
  message : String
  chatHistory : List ChatMessage

/-- Response body of `POST /api/chatbot`: HTTP 200 `{"text": ...}`. -/
structure ChatResponse where
  text : String
  deriving DecidableEq, Repr

/-- The `if`/`elif` chain of `handle_chat` mapping a detected intent label
to its canned reply, with the fixed fallback as the `else` branch. -/
def mapIntentToResponse (intent : String) : String :=
  if intent = "greeting" then
    "Hello there! How can I assist you today?"
  else if intent = "goodbye" then
    "Goodbye! Have a great day."
  else if intent = "about_freaksearch" then
    "FreakSearch is a platform for verified information."
  else if intent = "fact_check_request" then
    "My fact-checking capabilities are currently offline."
  else
    "I\x27m sorry, I don\x27t understand that yet. Can you please rephrase?"

/-- `handle_chat` (`POST /api/chatbot`): classify `request.message` with
the custom model and return the mapped canned reply.  `chatHistory` is
part of the request model but is never read. -/
def handle_chat (model : Option ModelFn) (vectorizer : Option VecFn)
    (request : ChatRequest) : ChatResponse :=
  { text := mapIntentToResponse
      (predict_intent_with_custom_model model vectorizer request.message) }

/-! ### Helper lemmas -/

theorem char_toNat_injective : Function.Injective Char.toNat := by
  intro c d h
  unfold Char.toNat at h
  refine Char.eq_of_val_eq (UInt32.eq_of_toBitVec_eq ?_)
  exact BitVec.eq_of_toNat_eq h

theorem idealDigest_injective (salt : Nat) : Function.Injective (idealDigest salt) := by
  intro p q h
  unfold idealDigest at h
  have hmap : Function.Injective (List.map (fun c : Char => c.toNat + salt)) := by
    refine List.map_injective_iff.mpr ?_
    intro c d hcd
    exact char_toNat_injective (Nat.add_right_cancel hcd)
  exact String.ext (hmap h)

theorem lookupUser_eq_none_iff (st : List UserRow) (u : String) :
    lookupUser st u = none ↔ ∀ r ∈ st, r.username ≠ u := by
  simp [lookupUser, List.find?_eq_none]

theorem lookupUser_isSome_iff (st : List UserRow) (u : String) :
    (lookupUser st u).isSome ↔ ∃ r ∈ st, r.username = u := by
  simp [lookupUser, List.find?_isSome]

theorem lookupUser_mem_username {st : List UserRow} {u : String} {r : UserRow}
    (h : lookupUser st u = some r) : r ∈ st ∧ r.username = u := by
  refine ⟨List.mem_of_find?_eq_some h, ?_⟩
  have := List.find?_some h
  simpa using this

/-! ### Concrete fixtures used by witnesses and counterexamples -/

def envOk : DbEnv := { connect := true, insert := Except.ok () }

def envInsertFail : DbEnv :=
  { connect := true, insert := Except.error "Lost connection to MySQL server" }

def aliceRow : UserRow := { username := "alice", password_hash := hash_password 3 "pw1" }

def vecOk0 : VecFn := fun _ => Except.ok [0]

def vecRaises : VecFn := fun _ => Except.error "vectorizer raised"

def modelGreeting : ModelFn := fun _ => Except.ok ["greeting"]

def modelRaises : ModelFn := fun _ => Except.error "model raised"

def modelEmpty : ModelFn := fun _ => Except.ok []

/-! ### Claims -/

/-- C7: for every password `p`, `verify(p, hash(p))` returns true, and for
every other password `q ≠ p`, `verify(q, hash(p))` returns false (in the
idealized collision-free model of bcrypt, so "with overwhelming
probability" holds with probability one). -/
theorem hash_then_verify_roundtrip (salt : Nat) (p q : String) :
    verify_password p (hash_password salt p) = true
    ∧ (q ≠ p → verify_password q (hash_password salt p) = false) := by
  constructor
  · simp [verify_password, hash_password]
  · intro hne
    simp only [verify_password, hash_password]
    rw [beq_eq_false_iff_ne]
    intro h
    exact hne (idealDigest_injective salt h)

theorem hash_then_verify_roundtrip_witness :
    ("guess" ≠ "secret")
    ∧ verify_password "secret" (hash_password 7 "secret") = true
    ∧ verify_password "guess" (hash_password 7 "secret") = false :=
  ⟨by decide, (hash_then_verify_roundtrip 7 "secret" "guess").1,
    (hash_then_verify_roundtrip 7 "secret" "guess").2 (by decide)⟩

/-- C8: for every plain password and every stored hash, including
malformed stored hashes, `verify_password` returns a boolean (it is a
total function into `Bool`, never an exception), and on a malformed
stored hash the result is `false`. -/
theorem verify_password_total_and_malformed_false (plain raw : String) (h : StoredHash) :
    (verify_password plain h = true ∨ verify_password plain h = false)
    ∧ verify_password plain (StoredHash.malformed raw) = false := by
  refine ⟨?_, rfl⟩
  cases hb : verify_password plain h
  · exact Or.inr rfl
  · exact Or.inl rfl

/-- C3: the intent-to-reply mapping is a total deterministic function:
each of the four known labels maps to its fixed string, and every other
label maps to the fixed fallback string. -/
theorem mapIntentToResponse_total_deterministic (intent : String)
    (h1 : intent ≠ "greeting") (h2 : intent ≠ "goodbye")
    (h3 : intent ≠ "about_freaksearch") (h4 : intent ≠ "fact_check_request") :
    mapIntentToResponse "greeting" = "Hello there! How can I assist you today?"
    ∧ mapIntentToResponse "goodbye" = "Goodbye! Have a great day."
    ∧ mapIntentToResponse "about_freaksearch"
        = "FreakSearch is a platform for verified information."
    ∧ mapIntentToResponse "fact_check_request"
        = "My fact-checking capabilities are currently offline."
    ∧ mapIntentToResponse intent
        = "I\x27m sorry, I don\x27t understand that yet. Can you please rephrase?" := by
  refine ⟨rfl, rfl, rfl, rfl, ?_⟩
  simp [mapIntentToResponse, h1, h2, h3, h4]

theorem mapIntentToResponse_total_deterministic_witness :
    ("unknown" ≠ "greeting" ∧ "unknown" ≠ "goodbye"
      ∧ "unknown" ≠ "about_freaksearch" ∧ "unknown" ≠ "fact_check_request")
    ∧ mapIntentToResponse "unknown"
        = "I\x27m sorry, I don\x27t understand that yet. Can you please rephrase?" :=
  ⟨⟨by decide, by decide, by decide, by decide⟩,
    (mapIntentToResponse_total_deterministic "unknown" (by decide) (by decide)
      (by decide) (by decide)).2.2.2.2⟩

/-- C9: the chatbot response depends only on the `message` field: two
requests with the same message and arbitrary (possibly different)
`chatHistory` values get identical response bodies. -/
theorem chatHistory_never_read (model : Option ModelFn) (vectorizer : Option VecFn)
    (r1 r2 : ChatRequest) (hmsg : r1.message = r2.message) :
    handle_chat model vectorizer r1 = handle_chat model vectorizer r2 := by
  simp [handle_chat, hmsg]

theorem chatHistory_never_read_witness :
    ({ message := "hi", chatHistory := [] } : ChatRequest).message
      = ({ message := "hi",
           chatHistory := [{ role := "user", parts := [{ text := "earlier turn" }] }] } :
          ChatRequest).message
    ∧ handle_chat none none { message := "hi", chatHistory := [] }
      = handle_chat none none
          { message := "hi",
            chatHistory := [{ role := "user", parts := [{ text := "earlier turn" }] }] } :=
  ⟨rfl, chatHistory_never_read none none _ _ rfl⟩

/-- C4: `classify` returns `"unknown"` whenever the classifier is
disabled (either artifact missing) or whenever vectorization or
prediction fails (including an empty prediction array, whose indexing
raises and is caught); failures never propagate, and with the classifier
disabled the chat endpoint returns the fixed fallback text for every
message. -/
theorem classify_unknown_on_disabled_or_failure (model : Option ModelFn)
    (vectorizer : Option VecFn) (vf : VecFn) (mf : ModelFn)
    (text err : String) (v : List Nat) (request : ChatRequest) :
    ((vectorizer = none ∨ model = none) →
       predict_intent_with_custom_model model vectorizer text = "unknown")
    ∧ (vf text = Except.error err →
       predict_intent_with_custom_model (some mf) (some vf) text = "unknown")
    ∧ (vf text = Except.ok v → mf v = Except.error err →
       predict_intent_with_custom_model (some mf) (some vf) text = "unknown")
    ∧ (vf text = Except.ok v → mf v = Except.ok [] →
       predict_intent_with_custom_model (some mf) (some vf) text = "unknown")
    ∧ ((vectorizer = none ∨ model = none) →
       (handle_chat model vectorizer request).text
         = "I\x27m sorry, I don\x27t understand that yet. Can you please rephrase?") := by
  have hdis : ∀ (m : Option ModelFn) (vc : Option VecFn) (t : String),
      (vc = none ∨ m = none) →
      predict_intent_with_custom_model m vc t = "unknown" := by
    intro m vc t h
    rcases h with h | h
    · subst h; cases m <;> rfl
    · subst h; cases vc <;> rfl
  refine ⟨fun h => hdis model vectorizer text h, ?_, ?_, ?_, ?_⟩
  · intro hv
    simp [predict_intent_with_custom_model, hv]
  · intro hv hm
    simp [predict_intent_with_custom_model, hv, hm]
  · intro hv hm
    simp [predict_intent_with_custom_model, hv, hm]
  · intro h
    show mapIntentToResponse
      (predict_intent_with_custom_model model vectorizer request.message) = _
    rw [hdis model vectorizer request.message h]
    rfl

theorem classify_unknown_on_disabled_or_failure_witness :
    (((none : Option VecFn) = none ∨ (some modelGreeting : Option ModelFn) = none)
      ∧ predict_intent_with_custom_model (some modelGreeting) none "hello" = "unknown")
    ∧ (vecRaises "hello" = Except.error "vectorizer raised"
      ∧ predict_intent_with_custom_model (some modelGreeting) (some vecRaises) "hello"
          = "unknown")
    ∧ (vecOk0 "hello" = Except.ok [0] ∧ modelRaises [0] = Except.error "model raised"
      ∧ predict_intent_with_custom_model (some modelRaises) (some vecOk0) "hello"
          = "unknown")
    ∧ (vecOk0 "hello" = Except.ok [0] ∧ modelEmpty [0] = Except.ok []
      ∧ predict_intent_with_custom_model (some modelEmpty) (some vecOk0) "hello"
          = "unknown")
    ∧ (handle_chat none none { message := "hello", chatHistory := [] }).text
        = "I\x27m sorry, I don\x27t understand that yet. Can you please rephrase?" := by
  refine ⟨⟨Or.inl rfl, ?_⟩, ⟨rfl, ?_⟩, ⟨rfl, rfl, ?_⟩, ⟨rfl, rfl, ?_⟩, ?_⟩
  · exact (classify_unknown_on_disabled_or_failure (some modelGreeting) none vecOk0
      modelGreeting "hello" "e" [0] ⟨"hello", []⟩).1 (Or.inl rfl)
  · exact (classify_unknown_on_disabled_or_failure (some modelGreeting) (some vecRaises)
      vecRaises modelGreeting "hello" "vectorizer raised" [0] ⟨"hello", []⟩).2.1 rfl
  · exact (classify_unknown_on_disabled_or_failure (some modelRaises) (some vecOk0)
      vecOk0 modelRaises "hello" "model raised" [0] ⟨"hello", []⟩).2.2.1 rfl rfl
  · exact (classify_unknown_on_disabled_or_failure (some modelEmpty) (some vecOk0)
      vecOk0 modelEmpty "hello" "e" [0] ⟨"hello", []⟩).2.2.2.1 rfl rfl
  · exact (classify_unknown_on_disabled_or_failure none none vecOk0 modelGreeting
      "hello" "e" [0] ⟨"hello", []⟩).2.2.2.2 (Or.inl rfl)

/-- C5 (amended): a `FileNotFoundError` while loading either artifact is
caught: startup completes non-fatally with both artifacts `None`, so the
classifier is permanently disabled and `classify` returns `"unknown"`
for all input.  Load failures of any other cause propagate out of the
module initializer (see the counterexample). -/
theorem load_fileNotFound_nonfatal_and_disables (lv : Except LoadError VecFn)
    (lm : Except LoadError ModelFn) (s : String) (v : VecFn) (text : String) :
    (lv = Except.error (LoadError.fileNotFound s) →
       loadArtifacts lv lm = Except.ok (none, none))
    ∧ (lv = Except.ok v → lm = Except.error (LoadError.fileNotFound s) →
       loadArtifacts lv lm = Except.ok (none, none))
    ∧ predict_intent_with_custom_model none none text = "unknown" := by
  refine ⟨?_, ?_, rfl⟩
  · intro h
    subst h
    rfl
  · intro h1 h2
    subst h1
    subst h2
    rfl

theorem load_fileNotFound_nonfatal_witness :
    ((Except.error (LoadError.fileNotFound "No such file or directory") :
        Except LoadError VecFn)
      = Except.error (LoadError.fileNotFound "No such file or directory"))
    ∧ loadArtifacts (Except.error (LoadError.fileNotFound "No such file or directory"))
        (Except.ok modelGreeting) = Except.ok (none, none) :=
  ⟨rfl, (load_fileNotFound_nonfatal_and_disables _ _ "No such file or directory"
    vecOk0 "x").1 rfl⟩

/-- C5 counterexample: a load failure that is not a `FileNotFoundError`
(for example a corrupt pickle) is not caught — module initialization
propagates the error, so startup does not complete non-fatally. -/
theorem load_other_error_is_fatal :
    loadArtifacts (Except.error (LoadError.otherError "invalid load key"))
        (Except.ok modelGreeting)
      = Except.error (LoadError.otherError "invalid load key")
    ∧ (loadArtifacts (Except.error (LoadError.otherError "invalid load key"))
        (Except.ok modelGreeting)).isOk = false :=
  ⟨rfl, rfl⟩

/-- C1: with a reachable database and a table satisfying the username
uniqueness invariant, login returns 200 `Login successful!` iff a row
with exactly the given username exists and the supplied password
verifies against that row's stored hash; in every other case it returns
401 `Invalid username or password.`. -/
theorem login_succeeds_iff_valid_credentials (env : DbEnv) (st : List UserRow)
    (user : UserAuth) (hconn : env.connect = true)
    (hnd : (st.map UserRow.username).Nodup) :
    ((login_user env st user).resp = ApiResponse.ok "Login successful!"
       ↔ ∃ r ∈ st, r.username = user.username
            ∧ verify_password user.password r.password_hash = true)
    ∧ ((¬ ∃ r ∈ st, r.username = user.username
            ∧ verify_password user.password r.password_hash = true) →
       (login_user env st user).resp
         = ApiResponse.httpError 401 "Invalid username or password.") := by
  cases hlk : lookupUser st user.username with
  | none =>
    have hnone := (lookupUser_eq_none_iff st user.username).mp hlk
    have h401 : (login_user env st user).resp
        = ApiResponse.httpError 401 "Invalid username or password." := by
      simp [login_user, hconn, hlk]
    refine ⟨?_, fun _ => h401⟩
    rw [h401]
    constructor
    · intro h
      exact absurd h (by simp)
    · rintro ⟨r, hr, hu, -⟩
      exact absurd hu (hnone r hr)
  | some db_user =>
    obtain ⟨hmem, huser⟩ := lookupUser_mem_username hlk
    cases hvp : verify_password user.password db_user.password_hash with
    | true =>
      have hok : (login_user env st user).resp = ApiResponse.ok "Login successful!" := by
        simp [login_user, hconn, hlk, hvp]
      refine ⟨?_, ?_⟩
      · rw [hok]
        exact ⟨fun _ => ⟨db_user, hmem, huser, hvp⟩, fun _ => rfl⟩
      · intro habs
        exact absurd ⟨db_user, hmem, huser, hvp⟩ habs
    | false =>
      have h401 : (login_user env st user).resp
          = ApiResponse.httpError 401 "Invalid username or password." := by
        simp [login_user, hconn, hlk, hvp]
      refine ⟨?_, fun _ => h401⟩
      rw [h401]
      constructor
      · intro h
        exact absurd h (by simp)
      · rintro ⟨r, hr, hu, hv⟩
        have hr_eq : r = db_user :=
          List.inj_on_of_nodup_map hnd hr hmem (by rw [hu, huser])
        rw [hr_eq] at hv
        rw [hv] at hvp
        exact absurd hvp (by simp)

theorem login_succeeds_iff_valid_credentials_witness :
    (envOk.connect = true ∧ (([aliceRow].map UserRow.username).Nodup))
    ∧ ((login_user envOk [aliceRow] { username := "alice", password := "pw1" }).resp
         = ApiResponse.ok "Login successful!"
       ↔ ∃ r ∈ [aliceRow], r.username = "alice"
            ∧ verify_password "pw1" r.password_hash = true) :=
  ⟨⟨rfl, by simp⟩,
    (login_succeeds_iff_valid_credentials envOk [aliceRow]
      { username := "alice", password := "pw1" } rfl (by simp)).1⟩

/-- C10: every login call, whatever its outcome, executes only read
(`SELECT`) statements, and the `users` table is unchanged after the
call. -/
theorem login_only_reads_and_preserves_table (env : DbEnv) (st : List UserRow)
    (user : UserAuth) :
    ((login_user env st user).trace.all SqlStmt.isRead) = true
    ∧ runTrace st (login_user env st user).trace = st := by
  by_cases hc : env.connect = false
  · simp [login_user, hc, runTrace]
  · cases hlk : lookupUser st user.username with
    | none =>
      simp [login_user, hc, hlk, runTrace, applyStmt, SqlStmt.isRead]
    | some db_user =>
      cases hvp : verify_password user.password db_user.password_hash <;>
        simp [login_user, hc, hlk, hvp, runTrace, applyStmt, SqlStmt.isRead]

/-- C2: the users table never acquires two rows with the same username:
every register call preserves username uniqueness; with a reachable
database, a register whose username already exists fails 400
`Username already exists.` and leaves the table unchanged; and a fresh
register succeeds with the `registered successfully` message, after
which a second register of the same username fails 400, leaving exactly
one row for that username. -/
theorem register_enforces_username_uniqueness (env env2 : DbEnv) (salt salt2 : Nat)
    (st : List UserRow) (user : UserAuth) (p2 : String)
    (hnd : (st.map UserRow.username).Nodup) :
    ((runTrace st (register_user env salt st user).trace).map UserRow.username).Nodup
    ∧ (env.connect = true → (∃ r ∈ st, r.username = user.username) →
        (register_user env salt st user).resp
          = ApiResponse.httpError 400 "Username already exists."
        ∧ runTrace st (register_user env salt st user).trace = st)
    ∧ (env.connect = true → env.insert = Except.ok () →
        (¬ ∃ r ∈ st, r.username = user.username) →
        (register_user env salt st user).resp
          = ApiResponse.ok ("User \x27" ++ user.username ++ "\x27 registered successfully.")
        ∧ (env2.connect = true →
            (register_user env2 salt2 (runTrace st (register_user env salt st user).trace)
                { username := user.username, password := p2 }).resp
              = ApiResponse.httpError 400 "Username already exists."
            ∧ ((runTrace st (register_user env salt st user).trace).filter
                 (fun r => r.username == user.username)).length = 1)) := by
  by_cases hc : env.connect = false
  · have htr : (register_user env salt st user).trace = [] := by
      simp [register_user, hc]
    refine ⟨by rw [htr]; exact hnd, ?_, ?_⟩
    · intro hconn
      exact absurd hconn (by simp [hc])
    · intro hconn
      exact absurd hconn (by simp [hc])
  · cases hlk : lookupUser st user.username with
    | some r0 =>
      have htr : (register_user env salt st user).trace = [SqlStmt.select user.username] := by
        simp [register_user, hc, hlk]
      have hresp : (register_user env salt st user).resp
          = ApiResponse.httpError 400 "Username already exists." := by
        simp [register_user, hc, hlk]
      have hrun : runTrace st (register_user env salt st user).trace = st := by
        rw [htr]
        rfl
      refine ⟨by rw [hrun]; exact hnd, fun _ _ => ⟨hresp, hrun⟩, ?_⟩
      intro _ _ habs
      obtain ⟨hmem, hu⟩ := lookupUser_mem_username hlk
      exact absurd ⟨r0, hmem, hu⟩ habs
    | none =>
      have hnone := (lookupUser_eq_none_iff st user.username).mp hlk
      cases hins : env.insert with
      | error e =>
        have htr : (register_user env salt st user).trace
            = [SqlStmt.select user.username, SqlStmt.rollback] := by
          simp [register_user, hc, hlk, hins]
        have hrun : runTrace st (register_user env salt st user).trace = st := by
          rw [htr]
          rfl
        refine ⟨by rw [hrun]; exact hnd, ?_, ?_⟩
        · rintro _ ⟨r, hr, hu⟩
          exact absurd hu (hnone r hr)
        · intro _ hok
          exact Except.noConfusion hok
      | ok uu =>
        have htr : (register_user env salt st user).trace
            = [SqlStmt.select user.username,
               SqlStmt.insertRow user.username (hash_password salt user.password),
               SqlStmt.commit] := by
          simp [register_user, hc, hlk, hins]
        have hresp : (register_user env salt st user).resp
            = ApiResponse.ok
                ("User \x27" ++ user.username ++ "\x27 registered successfully.") := by
          simp [register_user, hc, hlk, hins]
        have hrun : runTrace st (register_user env salt st user).trace
            = st ++ [⟨user.username, hash_password salt user.password⟩] := by
          rw [htr]
          rfl
        have hu_not : user.username ∉ st.map UserRow.username := by
          intro hmm
          rw [List.mem_map] at hmm
          obtain ⟨r, hr, hru⟩ := hmm
          exact hnone r hr hru
        have hnd1 : ((st ++ [(⟨user.username, hash_password salt user.password⟩ :
            UserRow)]).map UserRow.username).Nodup := by
          rw [List.map_append, List.nodup_append]
          refine ⟨hnd, List.nodup_singleton _, ?_⟩
          simpa [List.disjoint_singleton] using hu_not
        refine ⟨by rw [hrun]; exact hnd1, ?_, ?_⟩
        · rintro _ ⟨r, hr, hu⟩
          exact absurd hu (hnone r hr)
        · intro _ _ _
          refine ⟨hresp, ?_⟩
          intro hconn2
          have hsome : (lookupUser
              (st ++ [(⟨user.username, hash_password salt user.password⟩ : UserRow)])
              user.username).isSome := by
            refine (lookupUser_isSome_iff _ _).mpr ?_
            exact ⟨⟨user.username, hash_password salt user.password⟩, by simp, rfl⟩
          obtain ⟨r2, hr2⟩ := Option.isSome_iff_exists.mp hsome
          have hresp2 : (register_user env2 salt2
              (st ++ [(⟨user.username, hash_password salt user.password⟩ : UserRow)])
              { username := user.username, password := p2 }).resp
              = ApiResponse.httpError 400 "Username already exists." := by
            simp [register_user, hconn2, hr2]
          have hfilt : (st ++ [(⟨user.username, hash_password salt user.password⟩ :
              UserRow)]).filter (fun r => r.username == user.username)
              = [⟨user.username, hash_password salt user.password⟩] := by
            rw [List.filter_append]
            have h1 : st.filter (fun r => r.username == user.username) = [] := by
              rw [List.filter_eq_nil_iff]
              intro a ha
              simpa using hnone a ha
            rw [h1]
            simp
          refine ⟨by rw [hrun]; exact hresp2, ?_⟩
          rw [hrun, hfilt]
          rfl

theorem register_enforces_username_uniqueness_witness :
    ((([] : List UserRow).map UserRow.username).Nodup
     ∧ envOk.connect = true ∧ envOk.insert = Except.ok ()
     ∧ ¬ ∃ r ∈ ([] : List UserRow), r.username = "alice")
    ∧ (register_user envOk 3 [] { username := "alice", password := "pw1" }).resp
        = ApiResponse.ok "User \x27alice\x27 registered successfully."
    ∧ (register_user envOk 4
         (runTrace [] (register_user envOk 3 [] { username := "alice", password := "pw1" }).trace)
         { username := "alice", password := "pw2" }).resp
        = ApiResponse.httpError 400 "Username already exists."
    ∧ ((runTrace []
          (register_user envOk 3 [] { username := "alice", password := "pw1" }).trace).filter
         (fun r => r.username == "alice")).length = 1 := by
  have h := register_enforces_username_uniqueness envOk envOk 3 4 []
    { username := "alice", password := "pw1" } "pw2" (by simp)
  obtain ⟨hok, hrest⟩ := h.2.2 rfl rfl (by simp)
  obtain ⟨h400, hlen⟩ := hrest rfl
  exact ⟨⟨by simp, rfl, rfl, by simp⟩, by rw [hok]; rfl, h400, hlen⟩

/-- C6: a register call that passes the uniqueness check but whose
insert fails is rolled back atomically — the users table is unchanged —
and the call fails with a 500 error whose detail reports the store
failure. -/
theorem register_insert_failure_rolls_back (env : DbEnv) (salt : Nat)
    (st : List UserRow) (user : UserAuth) (e : String)
    (hconn : env.connect = true) (hins : env.insert = Except.error e)
    (hfresh : lookupUser st user.username = none) :
    runTrace st (register_user env salt st user).trace = st
    ∧ (register_user env salt st user).resp
        = ApiResponse.httpError 500 ("Failed to register user: " ++ e) := by
  have htr : (register_user env salt st user).trace
      = [SqlStmt.select user.username, SqlStmt.rollback] := by
    simp [register_user, hconn, hfresh, hins]
  exact ⟨by rw [htr]; rfl, by simp [register_user, hconn, hfresh, hins]⟩

theorem register_insert_failure_rolls_back_witness :
    (envInsertFail.connect = true
     ∧ envInsertFail.insert = Except.error "Lost connection to MySQL server"
     ∧ lookupUser [] "alice" = none)
    ∧ runTrace []
        (register_user envInsertFail 3 [] { username := "alice", password := "pw1" }).trace
        = []
    ∧ (register_user envInsertFail 3 [] { username := "alice", password := "pw1" }).resp
        = ApiResponse.httpError 500
            ("Failed to register user: " ++ "Lost connection to MySQL server") :=
  ⟨⟨rfl, rfl, rfl⟩,
    register_insert_failure_rolls_back envInsertFail 3 []
      { username := "alice", password := "pw1" } "Lost connection to MySQL server"
      rfl rfl rfl⟩

end FreakSearch
